import Mathlib

/-!
Verification development for the background listener subsystem of the
serial communication manager native layer (files
unix_like_serial_lib.c and windows_serial.c).

The embedding models byte stores (C arrays of jbyte) as total functions
from an index to an integer value, the read syscall outcomes seen by the
data listener loop as an inductive type, and each loop of the source as
a structurally recursive Lean function over the list of outcomes the
backend produces.
-/

namespace SerialNative

/- ------------------------------------------------------------------
   data_looper, unix_like_serial_lib.c lines 102-458.
   ------------------------------------------------------------------ -/

/-- Pointwise update of a byte store, modelling a single C array store
such as final_buf[i] = buffer[i]. -/
def updf (f : Nat → Int) (i : Nat) (v : Int) : Nat → Int :=
  fun j => if j = i then v else f j

/-- Models n iterations of the C loop body final_buf[i] = buffer[i]; i++ . -/
def copyN : (Nat → Int) → (Nat → Int) → Nat → Nat → (Nat → Int)
  | fb, _, _, 0 => fb
  | fb, buf, i, n + 1 => copyN (updf fb i (buf i)) buf (i + 1) n

/-- Models the C loop for(i = start; i < ret; i++) final_buf[i] = buffer[i];
from data_looper (lines 363-365 and 380-382). -/
def copyFrom (fb buf : Nat → Int) (start ret : Nat) : Nat → Int :=
  copyN fb buf start (ret - start)

/-- Index set of the stores performed by copyFrom: start, start+1, ..., ret-1. -/
def copyWrites (start ret : Nat) : List Nat :=
  List.range' start (ret - start)

/-- Models read(fd, buffer, 1024) depositing its result bytes at the front
of the stack buffer; positions past the returned count keep their old
content, exactly as the C local array buffer does. -/
def readInto (buf : Nat → Int) (bytes : List Int) : Nat → Int :=
  fun j => bytes.getD j (buf j)

/-- Per-thread mutable state of the read loop of data_looper: the 1024-byte
stack buffer, the 3072-byte accumulator final_buf, the carried byte count
(C variable index) and the partial-data indicator (C variable partialData,
initially -1, set to 1 when a partial read is pending). -/
structure DLState where
  buffer : Nat → Int
  final_buf : Nat → Int
  carry : Nat
  partFlag : Int

/-- Outcome of one read(fd, buffer, sizeof(buffer)) call, classified the way
the branches of data_looper lines 359-413 classify (ret, errno):
ok is ret > 0 with errno 0, more is ret > 0 with errno EINTR (interrupted
mid-transfer, partial bytes obtained), intr is ret < 0 with errno EINTR,
fail is ret < 0 with another errno, drained is ret = 0. -/
inductive ReadResult where
  | ok (bytes : List Int)
  | more (bytes : List Int)
  | intr
  | fail (e : Nat)
  | drained

/-- How one pass of the inner do-while read loop of data_looper ends:
a single delivery to insertInDataQueue, an error code passed to
insertInDataErrorQueue, a break with no delivery (ret = 0), or the thread
still blocked in read because the supplied outcome list ran out. -/
inductive DLOutcome where
  | delivered (bytes : List Int)
  | errNotified (e : Nat)
  | noData
  | blocked
deriving DecidableEq

/-- Result of running the inner read loop: final state, how it ended, and
the indices of every store into final_buf it performed (ghost
instrumentation used for the bounds claim). -/
structure DLStep where
  state : DLState
  outcome : DLOutcome
  writes : List Nat

/-- The inner do { read ... } while(1) loop of data_looper (lines 354-414),
driven by the list of successive read outcomes. On ret > 0 and errno 0 with
a partial pending it appends via the C loop for(i = index; i < ret; i++)
final_buf[i] = buffer[i], builds a jbyteArray of length index + ret from
final_buf and breaks with data_available = 1; with no partial pending it
delivers the fresh buffer of length ret. On ret > 0 with errno EINTR it
runs the same copy loop, sets index = ret and partialData = 1, and
continues. On ret < 0 with errno EINTR it retries; with another errno it
notifies the error queue and breaks. On ret = 0 it breaks without
delivery. -/
def readLoop : DLState → List ReadResult → DLStep
  | s, [] => ⟨s, DLOutcome.blocked, []⟩
  | s, ReadResult.ok bytes :: _ =>
      let ret := bytes.length
      let buffer := readInto s.buffer bytes
      if s.partFlag = 1 then
        let fb := copyFrom s.final_buf buffer s.carry ret
        ⟨⟨buffer, fb, s.carry, s.partFlag⟩,
          DLOutcome.delivered ((List.range (s.carry + ret)).map fb),
          copyWrites s.carry ret⟩
      else
        ⟨⟨buffer, s.final_buf, s.carry, s.partFlag⟩,
          DLOutcome.delivered ((List.range ret).map buffer), []⟩
  | s, ReadResult.more bytes :: rest =>
      let ret := bytes.length
      let buffer := readInto s.buffer bytes
      let fb := copyFrom s.final_buf buffer s.carry ret
      let step := readLoop ⟨buffer, fb, ret, 1⟩ rest
      ⟨step.state, step.outcome, copyWrites s.carry ret ++ step.writes⟩
  | s, ReadResult.intr :: rest => readLoop s rest
  | s, ReadResult.fail e :: _ => ⟨s, DLOutcome.errNotified e, []⟩
  | s, ReadResult.drained :: _ => ⟨s, DLOutcome.noData, []⟩

/-- Result of running the outer wait loop over several readiness
notifications: final state, the successive byte arrays handed to
insertInDataQueue, and all final_buf store indices. -/
structure DLRun where
  state : DLState
  deliveries : List (List Int)
  writes : List Nat

/-- The outer while(1) wait loop of data_looper (lines 294-455) restricted
to readiness notifications for the port descriptor: each notification runs
the inner read loop and, when data_available = 1, passes the assembled
array to insertInDataQueue. Nothing of the read-loop state is reset
between notifications, exactly as in the source. -/
def notifyLoop : DLState → List (List ReadResult) → DLRun
  | s, [] => ⟨s, [], []⟩
  | s, evs :: rest =>
      let step := readLoop s evs
      let run := notifyLoop step.state rest
      let dels :=
        match step.outcome with
        | DLOutcome.delivered bs => bs :: run.deliveries
        | _ => run.deliveries
      ⟨run.state, dels, step.writes ++ run.writes⟩

/-- Initial read-loop state of data_looper (lines 105-110): index = 0,
partialData = -1, both byte arrays uninitialised (passed in as arbitrary
stores). -/
def initDL (buf0 fb0 : Nat → Int) : DLState :=
  ⟨buf0, fb0, 0, -1⟩

/-- A concrete all-zero byte store used to evaluate the model. -/
def zeroBuf : Nat → Int :=
  fun _ => 0

/-- C1: a 4-byte partial read followed by a 6-byte completing read yields
exactly one delivery, but its content is not the concatenation of the two
chunks: the copy loop for(i = index; i < ret; i++) final_buf[i] = buffer[i]
drops the first index bytes of the completing read and the tail of the
10-byte array is stale accumulator content, so the sink receives
[1,2,3,4,9,10,0,0,0,0] instead of [1,2,3,4,5,6,7,8,9,10]. -/
theorem c1_reassembly_drops_completion_head :
    (readLoop (initDL zeroBuf zeroBuf)
        [ReadResult.more [1, 2, 3, 4], ReadResult.ok [5, 6, 7, 8, 9, 10]]).outcome
      = DLOutcome.delivered [1, 2, 3, 4, 9, 10, 0, 0, 0, 0]
    ∧ DLOutcome.delivered [1, 2, 3, 4, 9, 10, 0, 0, 0, 0]
      ≠ DLOutcome.delivered ([1, 2, 3, 4] ++ [5, 6, 7, 8, 9, 10]) := by
  exact ⟨rfl, by decide⟩

/-- C8: after the assembled chunk of the first notification is delivered,
partialData is still 1 and index is still 4 (nothing resets them), so the
clean 5-byte read of the next, unrelated notification is routed through
the partial branch and delivered as a 9-byte array mixing stale
accumulator content with two bytes of the fresh read, instead of the
fresh bytes [20,21,22,23,24] alone. -/
theorem c8_accumulator_state_never_reset :
    (notifyLoop (initDL zeroBuf zeroBuf)
        [[ReadResult.more [1, 2, 3, 4], ReadResult.ok [5, 6, 7, 8, 9, 10]],
         [ReadResult.ok [20, 21, 22, 23, 24]]]).deliveries
      = [[1, 2, 3, 4, 9, 10, 0, 0, 0, 0], [1, 2, 3, 4, 24, 10, 0, 0, 0]]
    ∧ ([1, 2, 3, 4, 24, 10, 0, 0, 0] : List Int) ≠ [20, 21, 22, 23, 24]
    ∧ (readLoop (initDL zeroBuf zeroBuf)
        [ReadResult.more [1, 2, 3, 4], ReadResult.ok [5, 6, 7, 8, 9, 10]]).state.partFlag = 1
    ∧ (readLoop (initDL zeroBuf zeroBuf)
        [ReadResult.more [1, 2, 3, 4], ReadResult.ok [5, 6, 7, 8, 9, 10]]).state.carry = 4 := by
  exact ⟨rfl, by decide, rfl, rfl⟩

/-- Boolean bound on a single read outcome: read(fd, buffer, sizeof(buffer))
never returns more than sizeof(buffer) = 1024 bytes. -/
def chunkOK : ReadResult → Bool
  | ReadResult.ok bytes => decide (bytes.length ≤ 1024)
  | ReadResult.more bytes => decide (bytes.length ≤ 1024)
  | ReadResult.intr => true
  | ReadResult.fail _ => true
  | ReadResult.drained => true

/-- The copy loop changes no cell outside the index range it iterates over. -/
theorem copyN_eq_outside (buf : Nat → Int) :
    ∀ (n : Nat) (fb : Nat → Int) (start j : Nat),
      j < start ∨ start + n ≤ j → copyN fb buf start n j = fb j := by
  intro n
  induction n with
  | zero => intro fb start j _; rfl
  | succ n ih =>
    intro fb start j h
    show copyN (updf fb start (buf start)) buf (start + 1) n j = fb j
    rw [ih (updf fb start (buf start)) (start + 1) j (by omega)]
    have hne : j ≠ start := by omega
    simp [updf, hne]

/-- copyWrites is the exact write footprint of copyFrom: any index outside
it keeps its previous final_buf value. -/
theorem copyFrom_eq_outside (fb buf : Nat → Int) (start ret j : Nat)
    (h : j ∉ copyWrites start ret) : copyFrom fb buf start ret j = fb j := by
  have hj : ¬(start ≤ j ∧ j < start + (ret - start)) := fun hc =>
    h (List.mem_range'_1.mpr hc)
  exact copyN_eq_outside buf (ret - start) fb start j (by omega)

/-- All final_buf stores of one pass of the inner read loop stay below
index 1024, and the carried index stays at most 1024, provided every read
outcome respects the 1024-byte chunk size and the incoming carry does. -/
theorem readLoop_writes_lt (s : DLState) (evs : List ReadResult)
    (hc : s.carry ≤ 1024) (hb : evs.all chunkOK = true) :
    (∀ j ∈ (readLoop s evs).writes, j < 1024)
    ∧ (readLoop s evs).state.carry ≤ 1024 := by
  induction evs generalizing s with
  | nil => exact ⟨by simp [readLoop], hc⟩
  | cons r rest ih =>
    rw [List.all_cons, Bool.and_eq_true] at hb
    cases r with
    | ok bytes =>
      have hlen : bytes.length ≤ 1024 := by simpa [chunkOK] using hb.1
      by_cases hp : s.partFlag = 1
      · refine ⟨?_, ?_⟩
        · intro j hj
          simp [readLoop, hp, copyWrites, List.mem_range'_1] at hj
          omega
        · simpa [readLoop, hp] using hc
      · refine ⟨?_, ?_⟩
        · intro j hj
          simp [readLoop, hp] at hj
        · simpa [readLoop, hp] using hc
    | more bytes =>
      have hlen : bytes.length ≤ 1024 := by simpa [chunkOK] using hb.1
      have ih' := ih ⟨readInto s.buffer bytes,
          copyFrom s.final_buf (readInto s.buffer bytes) s.carry bytes.length,
          bytes.length, 1⟩ hlen hb.2
      refine ⟨?_, ?_⟩
      · intro j hj
        rcases List.mem_append.mp hj with h1 | h2
        · have := List.mem_range'_1.mp h1
          omega
        · exact ih'.1 j h2
      · exact ih'.2
    | intr => exact ih s hc hb.2
    | fail e => exact ⟨by simp [readLoop], hc⟩
    | drained => exact ⟨by simp [readLoop], hc⟩

/-- C10: over any sequence of readiness notifications and any sequence of
partial and completing reads inside them, every store into the 3072-byte
accumulator final_buf lands below index 1024 (the single-read chunk size),
hence below the 3072-byte capacity, and the carried index stays bounded by
1024. -/
theorem c10_final_buf_stores_in_bounds (s : DLState) (nots : List (List ReadResult))
    (hc : s.carry ≤ 1024)
    (hb : nots.all (fun evs => evs.all chunkOK) = true) :
    (∀ j ∈ (notifyLoop s nots).writes, j < 1024 ∧ j < 3072)
    ∧ (notifyLoop s nots).state.carry ≤ 1024 := by
  induction nots generalizing s with
  | nil => exact ⟨by simp [notifyLoop], hc⟩
  | cons evs rest ih =>
    rw [List.all_cons, Bool.and_eq_true] at hb
    have hstep := readLoop_writes_lt s evs hc hb.1
    have ih' := ih (readLoop s evs).state hstep.2 hb.2
    refine ⟨?_, ih'.2⟩
    intro j hj
    have hw : (notifyLoop s (evs :: rest)).writes
        = (readLoop s evs).writes ++ (notifyLoop (readLoop s evs).state rest).writes := rfl
    rw [hw, List.mem_append] at hj
    rcases hj with h1 | h2
    · have := hstep.1 j h1
      exact ⟨this, by omega⟩
    · exact ih'.1 j h2

/-- Witness for C10 at a concrete partial-then-complete run: index 5 is
written, and it is within both bounds; the carried index stays bounded. -/
theorem c10_final_buf_stores_in_bounds_witness :
    5 < 1024 ∧ 5 < 3072
    ∧ (notifyLoop (initDL zeroBuf zeroBuf)
        [[ReadResult.more [1, 2, 3, 4], ReadResult.ok [5, 6, 7, 8, 9, 10]]]).state.carry ≤ 1024 := by
  have h := c10_final_buf_stores_in_bounds (initDL zeroBuf zeroBuf)
      [[ReadResult.more [1, 2, 3, 4], ReadResult.ok [5, 6, 7, 8, 9, 10]]]
      (by decide) (by decide)
  exact ⟨(h.1 5 (by decide)).1, (h.1 5 (by decide)).2, h.2⟩

/- ------------------------------------------------------------------
   event_looper, unix_like_serial_lib.c lines 475-624.
   ------------------------------------------------------------------ -/

/-- Event bit for clear-to-send, event_looper line 483. -/
def CTS : Nat := 0x01

/-- Event bit for data-set-ready, event_looper line 484. -/
def DSR : Nat := 0x02

/-- Event bit for data-carrier-detect, event_looper line 485. -/
def DCD : Nat := 0x04

/-- Event bit for ring-indicator, event_looper line 486. -/
def RI : Nat := 0x08

/-- Modem status bit TIOCM_CTS of the termios interface. -/
def TIOCM_CTS : Nat := 0x020

/-- Modem status bit TIOCM_DSR of the termios interface. -/
def TIOCM_DSR : Nat := 0x100

/-- Modem status bit TIOCM_CD of the termios interface. -/
def TIOCM_CD : Nat := 0x040

/-- Modem status bit TIOCM_RI of the termios interface. -/
def TIOCM_RI : Nat := 0x080

/-- Decoding of the TIOCMGET status word into the 4-bit event mask,
event_looper lines 581-597: each line flag is tested, then ORed into the
event value as CTS = 0x01, DSR = 0x02, DCD = 0x04, RI = 0x08. -/
def decodeLines (lines_status : Nat) : Nat :=
  let cts := if lines_status &&& TIOCM_CTS ≠ 0 then 1 else 0
  let dsr := if lines_status &&& TIOCM_DSR ≠ 0 then 1 else 0
  let dcd := if lines_status &&& TIOCM_CD ≠ 0 then 1 else 0
  let ri := if lines_status &&& TIOCM_RI ≠ 0 then 1 else 0
  let event := 0
  let event := if cts ≠ 0 then event ||| CTS else event
  let event := if dsr ≠ 0 then event ||| DSR else event
  let event := if dcd ≠ 0 then event ||| DCD else event
  let event := if ri ≠ 0 then event ||| RI else event
  event

/-- The macOS cycle of event_looper (lines 608-620): the decoded mask is
handed to insertInEventQueue only when it differs from oldstate, which is
then updated; oldstate starts at 0 (line 491). The argument list holds the
successive TIOCMGET status words, one per poll cycle. -/
def event_looper_mac : Nat → List Nat → List Nat
  | _, [] => []
  | oldstate, ls :: rest =>
      let newstate := decodeLines ls
      if newstate ≠ oldstate then newstate :: event_looper_mac newstate rest
      else event_looper_mac oldstate rest

/-- The Linux cycle of event_looper (lines 599-607): the decoded mask is
handed to insertInEventQueue unconditionally every cycle. -/
def event_looper_linux (statuses : List Nat) : List Nat :=
  statuses.map decodeLines

/-- C6: the status word decodes to the documented 4-bit mask; on macOS the
sequence CTS = 0, 1, 1, 0 (others low, initial oldstate 0) produces exactly
the two deliveries [CTS, 0]; delivery is suppressed exactly when the decoded
mask equals the previous state; the Linux variant delivers the decoded mask
unconditionally at every cycle. -/
theorem c6_decode_and_edge_triggered_delivery :
    decodeLines TIOCM_CTS = CTS
    ∧ decodeLines TIOCM_DSR = DSR
    ∧ decodeLines TIOCM_CD = DCD
    ∧ decodeLines TIOCM_RI = RI
    ∧ decodeLines 0 = 0
    ∧ event_looper_mac 0 [0, TIOCM_CTS, TIOCM_CTS, 0] = [CTS, 0]
    ∧ (event_looper_mac 0 [0, TIOCM_CTS, TIOCM_CTS, 0]).length = 2
    ∧ (∀ oldstate ls rest, decodeLines ls = oldstate →
        event_looper_mac oldstate (ls :: rest) = event_looper_mac oldstate rest)
    ∧ (∀ oldstate ls rest, decodeLines ls ≠ oldstate →
        event_looper_mac oldstate (ls :: rest)
          = decodeLines ls :: event_looper_mac (decodeLines ls) rest)
    ∧ (∀ pre ls post,
        event_looper_linux (pre ++ ls :: post)
          = event_looper_linux pre ++ decodeLines ls :: event_looper_linux post) := by
  refine ⟨by decide, by decide, by decide, by decide, by decide, by decide, by decide,
    ?_, ?_, ?_⟩
  · intro oldstate ls rest h
    simp [event_looper_mac, h]
  · intro oldstate ls rest h
    simp [event_looper_mac, h]
  · intro pre ls post
    simp [event_looper_linux]

/-- Witness for C6: a CTS rise from previous state 0 is delivered, while a
repeat of the decoded state 1 is suppressed. -/
theorem c6_decode_and_edge_triggered_delivery_witness :
    event_looper_mac 0 [TIOCM_CTS] = [CTS]
    ∧ event_looper_mac 1 [TIOCM_CTS] = [] := by
  obtain ⟨-, -, -, -, -, -, -, hsupp, hdeliv, -⟩ := c6_decode_and_edge_triggered_delivery
  exact ⟨(hdeliv 0 TIOCM_CTS [] (by decide)).trans (by decide),
    (hsupp 1 TIOCM_CTS [] (by decide)).trans (by decide)⟩

/- ------------------------------------------------------------------
   serial_delay, unix_like_serial_lib.c lines 92-98.
   ------------------------------------------------------------------ -/

/-- serial_delay builds the timespec handed to pselect: tv_sec is the
integer division milliSeconds / 1000 and tv_nsec is set to 0 (lines 94-95).
The model returns the pair (tv_sec, tv_nsec). -/
def serial_delay (milliSeconds : Nat) : Nat × Nat :=
  (milliSeconds / 1000, 0)

/-- Settle delay the Linux port_monitor requests after a udev event,
port_monitor line 887: serial_delay(500). -/
def udevSettleDelayMs : Nat := 500

/-- C9: serial_delay sleeps only whole seconds, discarding the sub-second
remainder in a zero tv_nsec; every argument below 1000 therefore yields a
zero timespec, i.e. no delay at all. -/
theorem c9_serial_delay_drops_subsecond (milliSeconds : Nat) :
    serial_delay milliSeconds = (milliSeconds / 1000, 0)
    ∧ (milliSeconds < 1000 → serial_delay milliSeconds = (0, 0)) := by
  refine ⟨rfl, fun h => ?_⟩
  simp [serial_delay, Nat.div_eq_of_lt h]

/-- Witness for C9 at the 500 ms settle delay the port monitor requests:
the produced timespec is entirely zero. -/
theorem c9_serial_delay_drops_subsecond_witness :
    serial_delay udevSettleDelayMs = (0, 0) :=
  (c9_serial_delay_drops_subsecond 500).2 (by decide)

/- ------------------------------------------------------------------
   error throttling of data_looper, lines 424-454.
   ------------------------------------------------------------------ -/

/-- One hard-error cycle of the wait loop (EPOLLERR or EV_ERROR branch):
errorCount is incremented, and when it reaches 100 the sink error entry
point is invoked and the counter reset; the Bool records whether the sink
was called on this occurrence. -/
def errorStep (errorCount : Nat) : Nat × Bool :=
  let c := errorCount + 1
  if c = 100 then (0, true) else (c, false)

/-- Occurrence numbers (1-based, counting from k occurrences already seen)
at which the sink error entry point fires over the next n consecutive
hard-error cycles, starting from counter value c. -/
def errorNotifyAux : Nat → Nat → Nat → List Nat
  | _, _, 0 => []
  | c, k, n + 1 =>
      let r := errorStep c
      if r.2 then (k + 1) :: errorNotifyAux r.1 (k + 1) n
      else errorNotifyAux r.1 (k + 1) n

/-- Occurrence numbers at which the sink error entry point fires over n
consecutive hard-error cycles starting from counter value c. -/
def errorNotifyPoints (c n : Nat) : List Nat :=
  errorNotifyAux c 0 n

/-- C5: over 250 consecutive hard wait errors starting from a zero counter,
the sink error entry point is invoked exactly twice, at occurrences 100 and
200; the counter resets to zero at each notification and advances without
notifying otherwise. -/
theorem c5_error_notifications_throttled :
    errorNotifyPoints 0 250 = [100, 200]
    ∧ (errorNotifyPoints 0 250).length = 2
    ∧ errorStep 99 = (0, true)
    ∧ errorStep 42 = (43, false) := by
  exact ⟨by decide, by decide, by decide, by decide⟩

/- ------------------------------------------------------------------
   port presence monitor: device_removed (lines 664-706), device_added
   (lines 712-754) and the Linux port_monitor wait loop (lines 878-937).
   ------------------------------------------------------------------ -/

/-- Errno classification used by the stat-probe dispatch of device_removed
and port_monitor; the other constructor stands for any errno that is none
of the seven explicitly tested values (path-does-not-exist lands there). -/
inductive ErrnoCode where
  | eacces
  | eloop
  | enametoolong
  | enomem
  | enotdir
  | eoverflow
  | efault
  | enoent
  | other (n : Nat)
deriving DecidableEq

/-- Outcome of stat() on the original port path. -/
inductive StatProbe where
  | ok
  | fails (e : ErrnoCode)
deriving DecidableEq

/-- The device_removed callback (macOS, lines 664-706): on a
kIOMessageServiceIsTerminated message it re-probes the original port path
with stat; a succeeding probe does nothing, a failing probe walks the
errno chain EACCES, ELOOP, ENAMETOOLONG, ENOMEM, ENOTDIR, EOVERFLOW,
EFAULT (each only logged) and any other errno reaches the final else,
which calls the port listener with code 2. Returns the list of codes
delivered to the sink. -/
def device_removed (messageIsTerminated : Bool) (probe : StatProbe) : List Nat :=
  if messageIsTerminated then
    match probe with
    | StatProbe.ok => []
    | StatProbe.fails e =>
        match e with
        | ErrnoCode.eacces => []
        | ErrnoCode.eloop => []
        | ErrnoCode.enametoolong => []
        | ErrnoCode.enomem => []
        | ErrnoCode.enotdir => []
        | ErrnoCode.eoverflow => []
        | ErrnoCode.efault => []
        | _ => [2]
  else []

/-- Action string carried by a udev event received by the Linux
port_monitor: add, remove, or anything else. -/
inductive UdevAction where
  | add
  | remove
  | otherAction
deriving DecidableEq

/-- One udev event handled by the Linux port_monitor loop (lines 894-934):
an add action delivers code 1 immediately; a remove action re-probes the
original port path with stat and walks the same errno chain as
device_removed, delivering code 2 only from the final else; any other
action does nothing. Returns the list of codes delivered to the sink. -/
def port_monitor_event (action : UdevAction) (probe : StatProbe) : List Nat :=
  match action with
  | UdevAction.add => [1]
  | UdevAction.remove =>
      match probe with
      | StatProbe.ok => []
      | StatProbe.fails e =>
          match e with
          | ErrnoCode.eacces => []
          | ErrnoCode.eloop => []
          | ErrnoCode.enametoolong => []
          | ErrnoCode.enomem => []
          | ErrnoCode.enotdir => []
          | ErrnoCode.eoverflow => []
          | ErrnoCode.efault => []
          | _ => [2]
  | UdevAction.otherAction => []

/-- C4: after a removal notification, a probe failure coded permission
denied, symlink loop or path too long delivers no removed-event; a probe
failure coded path-does-not-exist delivers exactly one removed-event
code 2; a succeeding probe delivers nothing; both the macOS callback and
the Linux loop implement this dispatch. -/
theorem c4_removal_revalidation_dispatch :
    device_removed true (StatProbe.fails ErrnoCode.eacces) = []
    ∧ device_removed true (StatProbe.fails ErrnoCode.eloop) = []
    ∧ device_removed true (StatProbe.fails ErrnoCode.enametoolong) = []
    ∧ device_removed true (StatProbe.fails ErrnoCode.enoent) = [2]
    ∧ device_removed true StatProbe.ok = []
    ∧ device_removed false (StatProbe.fails ErrnoCode.enoent) = []
    ∧ port_monitor_event UdevAction.remove (StatProbe.fails ErrnoCode.eacces) = []
    ∧ port_monitor_event UdevAction.remove (StatProbe.fails ErrnoCode.eloop) = []
    ∧ port_monitor_event UdevAction.remove (StatProbe.fails ErrnoCode.enametoolong) = []
    ∧ port_monitor_event UdevAction.remove (StatProbe.fails ErrnoCode.enoent) = [2]
    ∧ port_monitor_event UdevAction.remove StatProbe.ok = [] := by
  exact ⟨rfl, rfl, rfl, rfl, rfl, rfl, rfl, rfl, rfl, rfl, rfl⟩

/-- The device_added callback (macOS, lines 712-754) restricted to its
delivery decision: with tempVal nonzero it calls the port listener with
code 1 and keeps tempVal; on the very first run (tempVal 0, as set by
port_monitor line 947) it delivers nothing and sets tempVal to 1. Returns
the new tempVal and the codes delivered. -/
def device_added (tempVal : Nat) : Nat × List Nat :=
  if tempVal ≠ 0 then (tempVal, [1]) else (1, [])

/-- Sequence of n device_added invocations from a given tempVal: final
tempVal and all codes delivered, in order. The first invocation is the
synthetic initial-enumeration call issued manually at line 983. -/
def device_added_run : Nat → Nat → Nat × List Nat
  | tempVal, 0 => (tempVal, [])
  | tempVal, n + 1 =>
      let first := device_added tempVal
      let rest := device_added_run first.1 n
      (rest.1, first.2 ++ rest.2)

/-- Once armed (tempVal 1), every invocation delivers exactly one code 1. -/
theorem device_added_run_armed (n : Nat) :
    device_added_run 1 n = (1, List.replicate n 1) := by
  induction n with
  | zero => rfl
  | succ n ih =>
    simp [device_added_run, device_added, ih, List.replicate_succ]

/-- C7: starting from the tempVal = 0 state installed by port_monitor, the
first synthetic added-notification of the initial enumeration delivers
nothing and arms the one-shot flag; afterwards each added-notification
delivers exactly one code 1, so n true notifications after the initial
pass deliver exactly n added-events. -/
theorem c7_initial_enumeration_suppressed (n : Nat) :
    device_added 0 = (1, [])
    ∧ (∀ tempVal, tempVal ≠ 0 → device_added tempVal = (tempVal, [1]))
    ∧ device_added_run 0 (n + 1) = (1, List.replicate n 1) := by
  refine ⟨rfl, fun t ht => by simp [device_added, ht], ?_⟩
  simp [device_added_run, device_added, device_added_run_armed]

/-- Witness for C7: with the flag armed at 1, one notification delivers
exactly one added-event; two notifications after the initial pass deliver
exactly two. -/
theorem c7_initial_enumeration_suppressed_witness :
    device_added 1 = (1, [1])
    ∧ device_added_run 0 3 = (1, [1, 1]) := by
  refine ⟨(c7_initial_enumeration_suppressed 0).2.1 1 (by decide), ?_⟩
  exact ((c7_initial_enumeration_suppressed 2).2.2).trans (by decide)

/- ------------------------------------------------------------------
   Windows registry: setUpDataLooperThread / setUpEventLooperThread /
   setupLooperThread (windows_serial.c lines 1266-1401) and
   destroyDataLooperThread / destroyEventLooperThread (lines 1408-1496).
   ------------------------------------------------------------------ -/

/-- One slot of the handle_looper_info array: the port handle and the
fields of looper_thread_params that the registration and destruction
paths touch. -/
structure LooperEntry where
  hComm : Nat
  data_enabled : Nat
  event_enabled : Nat
  thread_exit : Nat
deriving DecidableEq

/-- Windows comm event mask bit EV_RXCHAR. -/
def EV_RXCHAR : Nat := 0x0001

/-- Windows comm event mask bit EV_RXFLAG. -/
def EV_RXFLAG : Nat := 0x0002

/-- Windows comm event mask bit EV_CTS. -/
def EV_CTS : Nat := 0x0008

/-- Windows comm event mask bit EV_DSR. -/
def EV_DSR : Nat := 0x0010

/-- Windows comm event mask bit EV_RLSD. -/
def EV_RLSD : Nat := 0x0020

/-- Windows comm event mask bit EV_BREAK. -/
def EV_BREAK : Nat := 0x0040

/-- Windows comm event mask bit EV_ERR. -/
def EV_ERR : Nat := 0x0080

/-- Windows comm event mask bit EV_RING. -/
def EV_RING : Nat := 0x0100

/-- Result of setupLooperThread: the registry (committed slots of
handle_looper_info, i.e. indices below dtp_index) and the returned int. -/
structure SetupResult where
  registry : List LooperEntry
  result : Int
deriving DecidableEq

/-- setupLooperThread (windows_serial.c lines 1351-1401): under the
process-wide critical section it creates the global reference (-240 on
failure), fills the next slot with thread_exit = 0, spawns
event_data_looper with _beginthreadex (-240 on failure, slot not
committed since dtp_index is not advanced), commits the slot by
advancing dtp_index and returns 0.  threadInitReport is the
initialization result the spawned thread will later report; the source
never reads any such flag before returning, which the model makes
explicit by ignoring the last argument. -/
def setupLooperThread (registry : List LooperEntry) (hComm : Nat)
    (data_enabled event_enabled : Nat) (globalRefOk spawnOk : Bool)
    (_threadInitReport : Int) : SetupResult :=
  if globalRefOk = false then ⟨registry, -240⟩
  else if spawnOk = false then ⟨registry, -240⟩
  else ⟨registry ++ [⟨hComm, data_enabled, event_enabled, 0⟩], 0⟩

/-- Linear scan of handle_looper_info for a slot whose hComm matches
(lines 1280-1286). -/
def threadExistsFor (registry : List LooperEntry) (hComm : Nat) : Bool :=
  registry.any (fun entry => entry.hComm == hComm)

/-- setUpDataLooperThread (lines 1266-1304): when a thread for the handle
already exists only the comm mask is widened with EV_RXCHAR; otherwise
setupLooperThread is called with data_enabled = 1, event_enabled = 0.
Returns the setup result and the updated mask when one was set. -/
def setUpDataLooperThread (registry : List LooperEntry) (hComm : Nat)
    (event_mask : Nat) (globalRefOk spawnOk : Bool)
    (threadInitReport : Int) : SetupResult × Option Nat :=
  if threadExistsFor registry hComm then
    (⟨registry, 0⟩, some (event_mask ||| EV_RXCHAR))
  else
    (setupLooperThread registry hComm 1 0 globalRefOk spawnOk threadInitReport, none)

/-- C2 counterexample: a fresh registration whose spawned thread would
report initialization failure -240 still returns 0 to the caller, because
setupLooperThread returns right after a successful _beginthreadex without
consulting any init-done flag. -/
theorem c2_register_returns_before_init_done :
    (setupLooperThread [] 7 1 0 true true (-240)).result = 0
    ∧ ((0 : Int) ≠ -240)
    ∧ (setUpDataLooperThread [] 7 0 true true (-240)).1.result = 0 := by
  exact ⟨rfl, by decide, rfl⟩

/-- C2 amended: when no thread exists for the handle, registration claims
the next slot and spawns the thread, then returns 0 immediately on a
successful spawn and -240 on global-reference or spawn failure; the
returned value is independent of whatever the spawned thread will later
report, i.e. the caller is not blocked on an init-done flag. -/
theorem c2_setup_spawns_and_returns_immediately (registry : List LooperEntry)
    (hComm : Nat) (d e : Nat) (r r2 : Int) :
    (setupLooperThread registry hComm d e true true r).result = 0
    ∧ (setupLooperThread registry hComm d e true true r).registry
        = registry ++ [⟨hComm, d, e, 0⟩]
    ∧ setupLooperThread registry hComm d e true true r
        = setupLooperThread registry hComm d e true true r2
    ∧ (setupLooperThread registry hComm d e false true r).result = -240
    ∧ (setupLooperThread registry hComm d e true false r).result = -240
    ∧ setUpDataLooperThread [] hComm 0 true true r
        = (setupLooperThread [] hComm 1 0 true true r, none) := by
  exact ⟨rfl, rfl, rfl, rfl, rfl, rfl⟩

/-- Sets thread_exit to 1 on the first slot whose hComm matches, as the
for-break loop of the destroy paths does (lines 1435-1441 and 1482-1488). -/
def setExitFlag : List LooperEntry → Nat → List LooperEntry
  | [], _ => []
  | entry :: rest, hComm =>
      if entry.hComm = hComm then { entry with thread_exit := 1 } :: rest
      else entry :: setExitFlag rest hComm

/-- Result of a destroy call: registry after it, the comm mask it set on
the handle, and the returned int. -/
structure DestroyResult where
  registry : List LooperEntry
  commMask : Nat
  result : Int
deriving DecidableEq

/-- destroyDataLooperThread (lines 1408-1449): the source declares
DWORD a = 0 and DOWRD b = a & EV_CTS (DOWRD being a typo for DWORD), so b
is 0 & EV_CTS; the guard (b & event_mask) == 1 decides between narrowing
the mask to the event bits (leaving the thread alive) and setting
thread_exit on the slot followed by SetCommMask(EV_BREAK) to wake the
thread. -/
def destroyDataLooperThread (registry : List LooperEntry) (hComm : Nat)
    (event_mask : Nat) : DestroyResult :=
  let a : Nat := 0
  let b : Nat := a &&& EV_CTS
  if b &&& event_mask = 1 then
    ⟨registry, EV_BREAK ||| EV_CTS ||| EV_DSR ||| EV_ERR ||| EV_RING ||| EV_RLSD ||| EV_RXFLAG, 0⟩
  else
    ⟨setExitFlag registry hComm, EV_BREAK, 0⟩

/-- destroyEventLooperThread (lines 1455-1496): same shape with
b = a & EV_RXCHAR (a = 0) and the narrow branch keeping only EV_RXCHAR. -/
def destroyEventLooperThread (registry : List LooperEntry) (hComm : Nat)
    (event_mask : Nat) : DestroyResult :=
  let a : Nat := 0
  let b : Nat := a &&& EV_RXCHAR
  if b &&& event_mask = 1 then
    ⟨registry, EV_RXCHAR, 0⟩
  else
    ⟨setExitFlag registry hComm, EV_BREAK, 0⟩

/-- Comm mask of a handle with both roles registered, as produced by
setUpDataLooperThread and setUpEventLooperThread widening (lines 1291 and
1336). -/
def bothRolesMask : Nat :=
  EV_RXCHAR ||| EV_BREAK ||| EV_CTS ||| EV_DSR ||| EV_ERR ||| EV_RING ||| EV_RLSD ||| EV_RXFLAG

/-- C3: because b is computed from a = 0, the guard (b & event_mask) == 1
is false for every mask, so both destroy paths set thread_exit = 1 and
wake the thread unconditionally; in particular with the other role still
registered (bothRolesMask) unregistering one role kills the shared
thread instead of narrowing the wait mask, leaving an active role with no
thread. -/
theorem c3_destroy_always_sets_exit_flag :
    (destroyDataLooperThread [⟨5, 1, 1, 0⟩] 5 bothRolesMask).registry = [⟨5, 1, 1, 1⟩]
    ∧ (destroyDataLooperThread [⟨5, 1, 1, 0⟩] 5 bothRolesMask).commMask = EV_BREAK
    ∧ (destroyEventLooperThread [⟨5, 1, 1, 0⟩] 5 bothRolesMask).registry = [⟨5, 1, 1, 1⟩]
    ∧ (∀ registry hComm mask,
        (destroyDataLooperThread registry hComm mask).registry
          = setExitFlag registry hComm)
    ∧ (∀ registry hComm mask,
        (destroyEventLooperThread registry hComm mask).registry
          = setExitFlag registry hComm) := by
  refine ⟨by decide, by decide, by decide, ?_, ?_⟩
  · intro registry hComm mask
    simp [destroyDataLooperThread]
  · intro registry hComm mask
    simp [destroyEventLooperThread]

end SerialNative
